import Mathlib

/-!
Shallow embedding of `src/gpiodmonitor/gpiodmonitor.py`.

Callbacks (Python callables) are represented by opaque numeric identifiers;
invoking a callback is modelled as emitting an event carrying the pin number
and the callback identifier.  Python integers are unbounded, so counters and
millisecond values are `Int`.  Python exceptions (IndexError from `list.pop`,
IOError from an unopened chip) are modelled with `Option`/error flags.
-/

namespace Gpiodmonitor

/-- Module-level constant DEBOUNCE_CHECK_INTERVAL (ms). -/
def DEBOUNCE_CHECK_INTERVAL : Int := 5

/-- Module-level constant DEBOUNCE_ACTIVE_INTERVAL (ms). -/
def DEBOUNCE_ACTIVE_INTERVAL : Int := 10

/-- Module-level constant DEBOUNCE_INACTIVE_INTERVAL (ms). -/
def DEBOUNCE_INACTIVE_INTERVAL : Int := 100

/-- The class-level attributes `GPIOPin.check_interval`,
`GPIOPin.active_interval`, `GPIOPin.inactive_interval`.  In the source these
live on the class `GPIOPin` itself (shared by all instances) and are being
overwritten by every `GPIODMonitor.__init__`; we model them as one shared
configuration value passed to every operation that reads them. -/
structure SharedConfig where
  check_interval : Int
  active_interval : Int
  inactive_interval : Int
deriving DecidableEq

/-- The shared configuration as it stands at module load time. -/
def initialSharedConfig : SharedConfig :=
  { check_interval := DEBOUNCE_CHECK_INTERVAL,
    active_interval := DEBOUNCE_ACTIVE_INTERVAL,
    inactive_interval := DEBOUNCE_INACTIVE_INTERVAL }

/-- Dataclass `TimedCallback`: a modifiable time in ms and a callback.
The callback (a Python callable) is an opaque identifier. -/
structure TimedCallback where
  callback : Nat
  time : Int
deriving DecidableEq

/-- An observable callback invocation: which callback list it came from,
the pin number passed as the argument, and the callback identifier. -/
inductive Ev where
  | act (pin : Nat) (cb : Nat)
  | inact (pin : Nat) (cb : Nat)
  | long (pin : Nat) (cb : Nat)
  | pulse (pin : Nat) (cb : Nat)
deriving DecidableEq

/-- Instance state of class `GPIOPin` (the slots `_num`, `_active`,
`_countdown`, `_countup`, `on_active`, `on_inactive`, `on_long_active`,
`on_pulsed_active`, `_stack_long`, `_stack_pulsed`). -/
structure GPIOPin where
  num : Nat
  active : Bool
  countdown : Int
  countup : Int
  on_active : List Nat
  on_inactive : List Nat
  on_long_active : List TimedCallback
  on_pulsed_active : List TimedCallback
  stack_long : List TimedCallback
  stack_pulsed : List TimedCallback
deriving DecidableEq

/-- `GPIOPin.__init__`: inactive, countdown = the class-level
`active_interval`, countup 0, all lists empty. -/
def GPIOPin.init (cfg : SharedConfig) (num : Nat) : GPIOPin :=
  { num := num,
    active := false,
    countdown := cfg.active_interval,
    countup := 0,
    on_active := [],
    on_inactive := [],
    on_long_active := [],
    on_pulsed_active := [],
    stack_long := [],
    stack_pulsed := [] }

/-- `GPIOPin.reset_countdown`: reset the countdown depending on the current
stable state. -/
def GPIOPin.reset_countdown (cfg : SharedConfig) (p : GPIOPin) : GPIOPin :=
  if p.active then { p with countdown := cfg.inactive_interval }
  else { p with countdown := cfg.active_interval }

/-- `GPIOPin.set_state`: record the new stable state and invoke every
callback in `on_active` or `on_inactive` (in list order) with the pin
number. -/
def GPIOPin.set_state (p : GPIOPin) (active : Bool) : GPIOPin × List Ev :=
  ({ p with active := active },
   if active then p.on_active.map (fun cb => Ev.act p.num cb)
   else p.on_inactive.map (fun cb => Ev.inact p.num cb))

/-- Python `list.pop(i)` for a non-negative index: removes the element at
index `i`, raising IndexError (`none`) when `i` is out of range. -/
def popAt (l : List TimedCallback) (i : Nat) : Option (List TimedCallback) :=
  if i < l.length then some (l.eraseIdx i) else none

/-- The loop `for i in to_pop: self._stack_long.pop(i)`: sequential pops at
the collected indices; the first out-of-range index raises (`none`). -/
def popMany : List TimedCallback → List Nat → Option (List TimedCallback)
  | l, [] => some l
  | l, i :: is =>
    match popAt l i with
    | none => none
    | some l2 => popMany l2 is

/-- The ordering `key=lambda x: x.time` used by every `sort` call.  Python's
`list.sort` is a stable sort; we model it with `List.insertionSort`, which is
likewise stable, so the two agree on every input. -/
def timeRel (a b : TimedCallback) : Prop := a.time ≤ b.time

instance : DecidableRel timeRel :=
  fun a b => inferInstanceAs (Decidable (a.time ≤ b.time))

instance : IsTotal TimedCallback timeRel :=
  ⟨fun a b => Int.le_total a.time b.time⟩

instance : IsTrans TimedCallback timeRel :=
  ⟨fun _ _ _ hab hbc => Int.le_trans hab hbc⟩

/-- The pulsed-callback loop of `GPIOPin.tick`:
`for i, timed_callback in enumerate(self._stack_pulsed): ...` with an early
break at the first entry whose time exceeds `_countup`.  On fire, the entry's
time is incremented by `self.on_pulsed_active[i].time` where `i` is the
index in the live (possibly re-sorted) stack; an out-of-range template index
raises after the callback has been invoked.  Returns the events fired, and on
success the updated stack plus the `sort` flag. -/
def pulseScan (tmpl : List TimedCallback) (num : Nat) (countup : Int) :
    Nat → List TimedCallback → List Ev × Option (List TimedCallback × Bool)
  | _, [] => ([], some ([], false))
  | i, tc :: rest =>
    if countup ≥ tc.time then
      match tmpl[i]? with
      | none => ([Ev.pulse num tc.callback], none)
      | some t0 =>
        let tc2 : TimedCallback := { callback := tc.callback, time := tc.time + t0.time }
        let (evs, res) := pulseScan tmpl num countup (i + 1) rest
        match res with
        | none => (Ev.pulse num tc.callback :: evs, none)
        | some (l, _) => (Ev.pulse num tc.callback :: evs, some (tc2 :: l, true))
    else ([], some (tc :: rest, false))

/-- `GPIOPin.tick(raw_active)`: one debounce step.  Returns the events fired
during the tick (in invocation order) and the post-tick state, `none` when
the tick raises (IndexError in one of the scan loops); events fired before
the raise are still reported, matching the side effects already performed. -/
def GPIOPin.tick (cfg : SharedConfig) (p : GPIOPin) (raw_active : Bool) :
    List Ev × Option GPIOPin :=
  if raw_active = p.active then
    -- state does not differ from the last accepted state: reset the countdown
    let p := p.reset_countdown cfg
    if p.active then
      let countup := p.countup + cfg.check_interval
      let p := { p with countup := countup }
      -- fire the leading entries of _stack_long whose time has been reached
      -- (the loop breaks at the first entry with countup < time)
      let fired := p.stack_long.takeWhile (fun tc => tc.time ≤ countup)
      let longEvs := fired.map (fun tc => Ev.long p.num tc.callback)
      -- remove fired callbacks: pop at the collected indices 0, 1, ...
      match popMany p.stack_long (List.range fired.length) with
      | none => (longEvs, none)
      | some sl =>
        let p := { p with stack_long := sl }
        let (pEvs, res) := pulseScan p.on_pulsed_active p.num countup 0 p.stack_pulsed
        match res with
        | none => (longEvs ++ pEvs, none)
        | some (sp, sortFlag) =>
          let sp := if sortFlag then sp.insertionSort timeRel else sp
          (longEvs ++ pEvs, some { p with stack_pulsed := sp })
    else ([], some p)
  else
    -- state is not the last accepted state: decrease the countdown
    let p := { p with countdown := p.countdown - cfg.check_interval }
    if p.countdown = 0 then
      let (p, evs) := p.set_state raw_active
      let p := p.reset_countdown cfg
      let p :=
        if p.active then
          { p with
            stack_long := p.on_long_active,
            stack_pulsed := p.on_pulsed_active.map
              (fun tc => { callback := tc.callback, time := tc.time : TimedCallback }),
            countup := 0 }
        else p
      (evs, some p)
    else ([], some p)

/-- Feed a sequence of raw samples tick by tick; `none` if any tick raises. -/
def runPin (cfg : SharedConfig) (p : GPIOPin) : List Bool → Option GPIOPin
  | [] => some p
  | r :: rs =>
    match GPIOPin.tick cfg p r with
    | (_, none) => none
    | (_, some q) => runPin cfg q rs

/-- All events fired while feeding a sequence of raw samples (the run stops
at a raising tick, keeping the events fired up to the raise). -/
def runEvents (cfg : SharedConfig) (p : GPIOPin) : List Bool → List Ev
  | [] => []
  | r :: rs =>
    match GPIOPin.tick cfg p r with
    | (evs, none) => evs
    | (evs, some q) => evs ++ runEvents cfg q rs

/-- The effect of `GPIODMonitor.register_long_active` on the target pin:
append the new `TimedCallback` to `on_long_active`, then sort (Python's
stable list sort) by time.  The source converts a float `seconds` argument
to int milliseconds; the model takes the millisecond value directly. -/
def registerLongCb (p : GPIOPin) (tc : TimedCallback) : GPIOPin :=
  { p with on_long_active := (p.on_long_active ++ [tc]).insertionSort timeRel }

/-- The effect of `GPIODMonitor.register_pulsed_active` on the target pin:
append to `on_pulsed_active`, then stable-sort by time. -/
def registerPulseCb (p : GPIOPin) (tc : TimedCallback) : GPIOPin :=
  { p with on_pulsed_active := (p.on_pulsed_active ++ [tc]).insertionSort timeRel }

/-- The effect of `GPIODMonitor.register` on the target pin: append the
optional callbacks to `on_active` / `on_inactive`. -/
def registerCb (p : GPIOPin) (onAct onInact : Option Nat) : GPIOPin :=
  let p := match onAct with
    | some cb => { p with on_active := p.on_active ++ [cb] }
    | none => p
  match onInact with
  | some cb => { p with on_inactive := p.on_inactive ++ [cb] }
  | none => p

/-- Errors surfaced by `GPIODMonitor.tick`: IOError('Chip not opened.') when
no chip handle is live, or an IndexError escaping a pin's tick. -/
inductive MonErr where
  | notAcquired
  | indexErr
deriving DecidableEq

/-- Class `GPIODMonitor`: the chip handle (`none` when not opened; when
opened, a function giving each line's instantaneous raw sample), the
registered pins in insertion order (Python dict order), and the instance
attribute `check_interval`. -/
structure GPIODMonitor where
  chip_number : Int
  chip : Option (Nat → Bool)
  pins : List (Nat × GPIOPin)
  check_interval : Int

/-- `GPIODMonitor.__init__`: besides building the instance, it overwrites the
class-level `GPIOPin` timing attributes; the second component is the shared
configuration as it stands after construction. -/
def GPIODMonitor.init (chip_number check_interval active_interval inactive_interval : Int) :
    GPIODMonitor × SharedConfig :=
  ({ chip_number := chip_number, chip := none, pins := [], check_interval := check_interval },
   { check_interval := check_interval,
     active_interval := active_interval,
     inactive_interval := inactive_interval })

/-- Look up a pin by number (`pin in self._pins`). -/
def findPin (pins : List (Nat × GPIOPin)) (n : Nat) : Option GPIOPin :=
  (pins.find? (fun np => np.1 = n)).map Prod.snd

/-- Lazy creation: `if not pin in self._pins: self._pins[pin] = GPIOPin(pin)`.
The fresh pin reads the class-level intervals, hence takes the shared
configuration. -/
def ensurePin (cfg : SharedConfig) (pins : List (Nat × GPIOPin)) (n : Nat) :
    List (Nat × GPIOPin) :=
  match findPin pins n with
  | some _ => pins
  | none => pins ++ [(n, GPIOPin.init cfg n)]

/-- Apply an update to the pin stored under number `n`. -/
def modifyPin (pins : List (Nat × GPIOPin)) (n : Nat) (f : GPIOPin → GPIOPin) :
    List (Nat × GPIOPin) :=
  pins.map (fun np => if np.1 = n then (np.1, f np.2) else np)

/-- `GPIODMonitor.register`: lazily create the pin, append the callbacks. -/
def GPIODMonitor.register (cfg : SharedConfig) (m : GPIODMonitor) (pin : Nat)
    (onAct onInact : Option Nat) : GPIODMonitor :=
  let ps := modifyPin (ensurePin cfg m.pins pin) pin (fun p => registerCb p onAct onInact)
  { m with pins := ps }

/-- `GPIODMonitor.register_long_active` (time already converted to ms). -/
def GPIODMonitor.register_long_active (cfg : SharedConfig) (m : GPIODMonitor)
    (pin : Nat) (cb : Nat) (ms : Int) : GPIODMonitor :=
  let ps := modifyPin (ensurePin cfg m.pins pin) pin
    (fun p => registerLongCb p { callback := cb, time := ms })
  { m with pins := ps }

/-- `GPIODMonitor.register_pulsed_active` (time already converted to ms). -/
def GPIODMonitor.register_pulsed_active (cfg : SharedConfig) (m : GPIODMonitor)
    (pin : Nat) (cb : Nat) (ms : Int) : GPIODMonitor :=
  let ps := modifyPin (ensurePin cfg m.pins pin) pin
    (fun p => registerPulseCb p { callback := cb, time := ms })
  { m with pins := ps }

/-- The loop body of `GPIODMonitor.tick`: advance each pin in order with its
raw sample (read through the live chip handle).  A raise inside a pin's tick
aborts the loop: the remaining pins keep their previous state (the raising
pin is kept at its pre-tick state as an approximation of the partially
mutated object; no theorem below depends on that pin's post-raise state). -/
def tickPins (cfg : SharedConfig) (f : Nat → Bool) :
    List (Nat × GPIOPin) → List (Nat × GPIOPin) × List Ev × Bool
  | [] => ([], [], false)
  | (n, p) :: rest =>
    match GPIOPin.tick cfg p (f n) with
    | (evs, none) => ((n, p) :: rest, evs, true)
    | (evs, some q) =>
      let (rest2, evs2, crashed) := tickPins cfg f rest
      ((n, q) :: rest2, evs ++ evs2, crashed)

/-- `GPIODMonitor.tick`: raise IOError when the chip is not opened (before
touching any pin), otherwise sample and advance every registered pin. -/
def GPIODMonitor.tick (cfg : SharedConfig) (m : GPIODMonitor) :
    GPIODMonitor × List Ev × Option MonErr :=
  match m.chip with
  | none => (m, [], some MonErr.notAcquired)
  | some f =>
    let (ps, evs, crashed) := tickPins cfg f m.pins
    ({ m with pins := ps }, evs, if crashed then some MonErr.indexErr else none)

/-- The `yield`-prefix of the generator `GPIODMonitor.open_chip`: open the
chip (modelled by installing the raw-sample function) and request the lines. -/
def openChipEnter (m : GPIODMonitor) (f : Nat → Bool) : GPIODMonitor :=
  { m with chip := some f }

/-- The code after the `yield` in `GPIODMonitor.open_chip`: close the chip
and clear the handle.  In the source this runs only when the generator is
resumed normally. -/
def openChipExitNormal (m : GPIODMonitor) : GPIODMonitor :=
  { m with chip := none }

/-- The `with self.open_chip()` scope.  `body` returns the monitor state at
scope exit and whether an exception escaped the body.  Because the generator
wraps no try/finally around its `yield`, `contextlib` throwing the body's
exception into the generator skips the lines after the `yield`: the close
path runs only on a normal exit. -/
def withOpenChip (m : GPIODMonitor) (f : Nat → Bool)
    (body : GPIODMonitor → GPIODMonitor × Bool) : GPIODMonitor × Bool :=
  let m1 := openChipEnter m f
  let (m2, raised) := body m1
  if raised then (m2, true)
  else (openChipExitNormal m2, false)

/-! Concrete scenario states used by the theorems below. -/

/-- The default timing configuration (check 5 ms, activation 10 ms,
deactivation 100 ms). -/
def cfgStd : SharedConfig :=
  { check_interval := 5, active_interval := 10, inactive_interval := 100 }

/-- A pin at the start of an activation episode with three long-hold
callbacks registered at 5 ms, 5 ms and 10 ms. -/
def c2pin : GPIOPin :=
  { num := 1, active := true, countdown := 100, countup := 0,
    on_active := [], on_inactive := [],
    on_long_active := [⟨10, 5⟩, ⟨11, 5⟩, ⟨12, 10⟩], on_pulsed_active := [],
    stack_long := [⟨10, 5⟩, ⟨11, 5⟩, ⟨12, 10⟩], stack_pulsed := [] }

/-- The state of `c2pin` after one agreement tick. -/
def c2after1 : GPIOPin :=
  { c2pin with countup := 5, stack_long := [⟨11, 5⟩] }

/-- A pin with exactly two long-hold callbacks, both due at 5 ms. -/
def c2crash : GPIOPin :=
  { c2pin with on_long_active := [⟨10, 5⟩, ⟨11, 5⟩],
               stack_long := [⟨10, 5⟩, ⟨11, 5⟩] }

/-- A pin at the start of an activation episode with two pulse callbacks of
periods 5 ms (id 20) and 7 ms (id 21). -/
def c3pin : GPIOPin :=
  { num := 2, active := true, countdown := 100, countup := 0,
    on_active := [], on_inactive := [],
    on_long_active := [], on_pulsed_active := [⟨20, 5⟩, ⟨21, 7⟩],
    stack_long := [], stack_pulsed := [⟨20, 5⟩, ⟨21, 7⟩] }

/-- The state of `c3pin` after one agreement tick. -/
def c3after1 : GPIOPin :=
  { c3pin with countup := 5, stack_pulsed := [⟨21, 7⟩, ⟨20, 10⟩] }

/-- The state of `c3pin` after two agreement ticks. -/
def c3after2 : GPIOPin :=
  { c3pin with countup := 10, stack_pulsed := [⟨21, 12⟩, ⟨20, 17⟩] }

/-- A fresh pin (number 3) with one activation callback (id 7). -/
def c4pin : GPIOPin := registerCb (GPIOPin.init cfgStd 3) (some 7) none

/-- A timing configuration whose activation interval (12 ms) is not a
multiple of the check interval (5 ms). -/
def cfg12 : SharedConfig :=
  { check_interval := 5, active_interval := 12, inactive_interval := 100 }

/-- A pin mid-episode with one live long-hold entry due at 5 ms. -/
def c5pin : GPIOPin :=
  { num := 5, active := true, countdown := 100, countup := 0,
    on_active := [], on_inactive := [],
    on_long_active := [⟨0, 5⟩], on_pulsed_active := [],
    stack_long := [⟨0, 5⟩], stack_pulsed := [] }

/-- A fresh inactive pin used to instantiate the frame theorem. -/
def c5wPin : GPIOPin := GPIOPin.init cfgStd 9

/-- The expected state after a confirmed flip to active from state `p`
(countdown already decremented to 0 on this tick): stable state true,
countdown reset for deactivation, working copies snapshotted from the
templates, countup cleared. -/
def flipToActive (cfg : SharedConfig) (p : GPIOPin) : GPIOPin :=
  { p with active := true,
           countdown := cfg.inactive_interval,
           countup := 0,
           stack_long := p.on_long_active,
           stack_pulsed := p.on_pulsed_active.map
             (fun tc => { callback := tc.callback, time := tc.time : TimedCallback }) }

/-- The expected state after a confirmed flip to inactive from state `p`:
stable state false, countdown reset for activation, everything else kept. -/
def flipToInactive (cfg : SharedConfig) (p : GPIOPin) : GPIOPin :=
  { p with active := false, countdown := cfg.active_interval }

/-- The shared timing configuration left behind by a first engine
constructed with the default intervals. -/
def cfgC9a : SharedConfig := (GPIODMonitor.init 0 5 10 100).2

/-- The shared timing configuration left behind by a second engine
constructed later with a 20 ms activation interval. -/
def cfgC9b : SharedConfig := (GPIODMonitor.init 0 5 20 100).2

/-- A pin created while the first engine's configuration was in force. -/
def pinC9 : GPIOPin := GPIOPin.init cfgC9a 11

/-- A raw-sample function whose lines all read active. -/
def fC7 : Nat → Bool := fun _ => true

/-- An engine with one registered pin and a live chip handle. -/
def mC7 : GPIODMonitor :=
  { chip_number := 0, chip := some fC7,
    pins := [(2, GPIOPin.init cfgStd 2)], check_interval := 5 }

/-- A freshly constructed engine: no chip handle yet. -/
def mC7none : GPIODMonitor := (GPIODMonitor.init 0 5 10 100).1

/-- An inactive pin one disagreeing tick away from a confirmed activation. -/
def c10pin : GPIOPin := { GPIOPin.init cfgStd 8 with countdown := 5 }

/-- The state of `c10pin`, after registering long-hold callback 30 at 0 ms
and pulse callback 31 at -2 ms, once the activation is confirmed. -/
def c10q : GPIOPin :=
  { num := 8, active := true, countdown := 100, countup := 0,
    on_active := [], on_inactive := [],
    on_long_active := [⟨30, 0⟩], on_pulsed_active := [⟨31, -2⟩],
    stack_long := [⟨30, 0⟩], stack_pulsed := [⟨31, -2⟩] }

/-- A fresh pin under the default configuration, used to instantiate the
debounce-characterization theorem. -/
def c1wPin : GPIOPin := GPIOPin.init cfgStd 12

/-- Is the event an invocation of an `on_active` / `on_inactive`
(state-change) callback? -/
def Ev.isStateChange : Ev → Bool
  | Ev.act _ _ => true
  | Ev.inact _ _ => true
  | Ev.long _ _ => false
  | Ev.pulse _ _ => false

/-- A timed-callback list sorted ascending by trigger time. -/
def SortedByTime (l : List TimedCallback) : Prop :=
  l.Pairwise timeRel

/-- The sortedness invariant over a pin: both template lists and both live
working lists are ascending by trigger time. -/
def PinSorted (p : GPIOPin) : Prop :=
  SortedByTime p.on_long_active ∧ SortedByTime p.on_pulsed_active ∧
  SortedByTime p.stack_long ∧ SortedByTime p.stack_pulsed

/-!  Theorems. -/

/-- C1, counterexample: with poll interval 5 ms and activation interval
12 ms (not a multiple of the poll interval), a fresh `GPIOPin` fed
`ceil(12 / 5) = 3` consecutive active raw samples — and even twice that —
has not flipped to active, contradicting the claimed iff: the countdown
steps over zero (5 ... -3 ... -18) and the flip never happens. -/
theorem claim_C1_cex :
    (runPin cfg12 (GPIOPin.init cfg12 4) [true, true, true]).map
        (fun q => (q.active, q.countdown)) = some (false, -3) ∧
    (runPin cfg12 (GPIOPin.init cfg12 4)
        [true, true, true, true, true, true]).map
        (fun q => (q.active, q.countdown)) = some (false, -18) := by
  constructor <;> rfl

/-- C2, code bug: with three long-hold callbacks at offsets 5, 5 and 10 ms,
the first agreement tick of the episode fires callbacks 10 and 11, but the
removal loop (`for i in to_pop: self._stack_long.pop(i)`) pops at the stale
indices 0 and 1 of the shrinking list, so the fired callback 11 stays in the
live list (and fires a second time on the next tick) while the never-fired
callback 12 is dropped.  With only the two 5 ms callbacks registered, the
second pop raises IndexError. -/
theorem claim_C2_bug :
    GPIOPin.tick cfgStd c2pin true = ([Ev.long 1 10, Ev.long 1 11], some c2after1) ∧
    (GPIOPin.tick cfgStd c2after1 true).1 = [Ev.long 1 11] ∧
    GPIOPin.tick cfgStd c2crash true = ([Ev.long 1 10, Ev.long 1 11], none) := by
  refine ⟨?_, ?_, ?_⟩ <;> rfl

/-- C3, code bug: with pulse callbacks of periods 5 ms (id 20) and 7 ms
(id 21), the requeue adds `on_pulsed_active[i].time` where `i` is the index
in the re-sorted live list: after the first fire the live list is
`[(21, 7), (20, 10)]`, and on the second tick the period-7 entry is requeued
to offset 7 + 5 = 12 (instead of 7 + 7 = 14) and the period-5 entry to
10 + 7 = 17 (instead of 10 + 5 = 15). -/
theorem claim_C3_bug :
    GPIOPin.tick cfgStd c3pin true = ([Ev.pulse 2 20], some c3after1) ∧
    GPIOPin.tick cfgStd c3after1 true =
      ([Ev.pulse 2 21, Ev.pulse 2 20], some c3after2) ∧
    c3after2.stack_pulsed = [⟨21, 12⟩, ⟨20, 17⟩] := by
  refine ⟨?_, ?_, ?_⟩ <;> rfl

/-- C4, confirmed: with poll 5 ms, activation 10 ms, deactivation 100 ms and
raw samples inactive, active, active, active, active fed to a fresh pin, the
stable state is inactive through tick 2 (countdown 10, then 5), flips to
active at tick 3 (countdown reaches 0 and is reset), the activation callback
fires exactly once in total — at tick 3 — and the hold counter is 0 at
tick 3, 5 at tick 4 and 10 at tick 5. -/
theorem claim_C4_scenario :
    (runPin cfgStd c4pin [false]).map (fun q => (q.active, q.countdown)) =
      some (false, 10) ∧
    (runPin cfgStd c4pin [false, true]).map (fun q => (q.active, q.countdown)) =
      some (false, 5) ∧
    (runPin cfgStd c4pin [false, true, true]).map
      (fun q => (q.active, q.countup)) = some (true, 0) ∧
    (runPin cfgStd c4pin [false, true, true, true]).map
      (fun q => (q.active, q.countup)) = some (true, 5) ∧
    (runPin cfgStd c4pin [false, true, true, true, true]).map
      (fun q => (q.active, q.countup)) = some (true, 10) ∧
    runEvents cfgStd c4pin [false, true] = [] ∧
    runEvents cfgStd c4pin [false, true, true] = [Ev.act 3 7] ∧
    runEvents cfgStd c4pin [false, true, true, true, true] = [Ev.act 3 7] := by
  refine ⟨?_, ?_, ?_, ?_, ?_, ?_, ?_, ?_⟩ <;> rfl

/-- C8, code bug: the `open_chip` generator has no try/finally around its
`yield`, so when the `with`-body raises (a callback exception out of
`tick()`, or the `sys.exit(130)` raised on KeyboardInterrupt inside
`monitor()`), the lines after the `yield` are skipped: the chip handle is
not closed and `_chip` stays set, so the engine is not back in the
not-acquired state.  Only the normal exit path releases the handle. -/
theorem claim_C8_bug :
    ((withOpenChip (GPIODMonitor.init 0 5 10 100).1 (fun _ => false)
        (fun m => (m, true))).1.chip).isSome = true ∧
    ((withOpenChip (GPIODMonitor.init 0 5 10 100).1 (fun _ => false)
        (fun m => (m, false))).1.chip).isSome = false := by
  constructor <;> rfl

/-- Every event emitted by the pulsed-callback loop is a pulse event. -/
theorem pulseScan_events (tmpl : List TimedCallback) (num : Nat) (cu : Int) :
    ∀ (l : List TimedCallback) (i : Nat) (e : Ev), e ∈ (pulseScan tmpl num cu i l).1 →
      ∃ cb, e = Ev.pulse num cb := by
  intro l
  induction l with
  | nil => intro i e he; simp [pulseScan] at he
  | cons tc rest ih =>
    intro i e he
    simp only [pulseScan] at he
    by_cases h : cu ≥ tc.time
    · rw [if_pos h] at he
      cases htm : tmpl[i]? with
      | none =>
        rw [htm] at he
        simp at he
        exact ⟨tc.callback, he⟩
      | some t0 =>
        rw [htm] at he
        cases hrec : pulseScan tmpl num cu (i + 1) rest with
        | mk evs res =>
          rw [hrec] at he
          cases res with
          | none =>
            simp at he
            rcases he with he | he
            · exact ⟨tc.callback, he⟩
            · exact ih (i + 1) e (by rw [hrec]; exact he)
          | some pr =>
            simp at he
            rcases he with he | he
            · exact ⟨tc.callback, he⟩
            · exact ih (i + 1) e (by rw [hrec]; exact he)
    · rw [if_neg h] at he
      simp at he

/-- On success the pulsed-callback loop keeps the callbacks of the live list
unchanged, in order (only trigger times are modified). -/
theorem pulseScan_map_callback (tmpl : List TimedCallback) (num : Nat) (cu : Int) :
    ∀ (l : List TimedCallback) (i : Nat) (l2 : List TimedCallback) (flag : Bool),
      (pulseScan tmpl num cu i l).2 = some (l2, flag) →
      l2.map TimedCallback.callback = l.map TimedCallback.callback := by
  intro l
  induction l with
  | nil =>
    intro i l2 flag h
    simp [pulseScan] at h
    simp [h.1.symm]
  | cons tc rest ih =>
    intro i l2 flag h
    simp only [pulseScan] at h
    by_cases hc : cu ≥ tc.time
    · rw [if_pos hc] at h
      cases htm : tmpl[i]? with
      | none => rw [htm] at h; simp at h
      | some t0 =>
        rw [htm] at h
        cases hrec : pulseScan tmpl num cu (i + 1) rest with
        | mk evs res =>
          rw [hrec] at h
          cases res with
          | none => simp at h
          | some pr =>
            cases pr with
            | mk l3 flag3 =>
              simp at h
              have := ih (i + 1) l3 flag3 (by rw [hrec])
              rw [← h.1]
              simp [this]
    · rw [if_neg hc] at h
      simp at h
      rw [← h.1]

/-- Popping a valid index yields a sublist. -/
theorem popAt_sublist (l l2 : List TimedCallback) (i : Nat)
    (h : popAt l i = some l2) : l2.Sublist l := by
  unfold popAt at h
  by_cases hi : i < l.length
  · rw [if_pos hi] at h
    cases h
    exact List.eraseIdx_sublist l i
  · rw [if_neg hi] at h
    cases h

/-- The pop loop, when it does not raise, yields a sublist of the live
long-hold list. -/
theorem popMany_sublist :
    ∀ (idxs : List Nat) (l l2 : List TimedCallback),
      popMany l idxs = some l2 → l2.Sublist l := by
  intro idxs
  induction idxs with
  | nil =>
    intro l l2 h
    simp [popMany] at h
    simp [h.symm]
  | cons i is ih =>
    intro l l2 h
    simp only [popMany] at h
    cases hp : popAt l i with
    | none => rw [hp] at h; cases h
    | some l3 =>
      rw [hp] at h
      exact (ih l3 l2 h).trans (popAt_sublist l l3 i hp)

/-- C5, amended: a tick whose raw sample equals the stable state never fires
an `on_active`/`on_inactive` callback and never changes the stable state,
the pin number, or any of the four registered template lists; the membership
of the live pulse list is preserved — the multiset of its callbacks is
unchanged, though a requeue may alter their offsets and, after the re-sort,
their order — and the live long-hold list may only lose entries (those that
fired are drained).  Beyond this only the countdown, the hold counter and
live pulse trigger times change.  (The original claim also demanded that
live long-hold membership never changes, which the drain refutes — see the
counterexample.) -/
theorem claim_C5_amended (cfg : SharedConfig) (p : GPIOPin) (raw : Bool) (q : GPIOPin)
    (h1 : raw = p.active) (h2 : (GPIOPin.tick cfg p raw).2 = some q) :
    (∀ e ∈ (GPIOPin.tick cfg p raw).1, e.isStateChange = false) ∧
    q.active = p.active ∧ q.num = p.num ∧
    q.on_active = p.on_active ∧ q.on_inactive = p.on_inactive ∧
    q.on_long_active = p.on_long_active ∧ q.on_pulsed_active = p.on_pulsed_active ∧
    q.stack_long.Sublist p.stack_long ∧
    (q.stack_pulsed.map TimedCallback.callback).Perm
      (p.stack_pulsed.map TimedCallback.callback) := by
  subst h1
  cases hA : p.active with
  | false =>
    simp [GPIOPin.tick, GPIOPin.reset_countdown, hA] at h2 ⊢
    subst h2
    simp [hA]
  | true =>
    simp only [GPIOPin.tick, GPIOPin.reset_countdown, hA, if_pos rfl, if_true] at h2 ⊢
    cases hpm : popMany p.stack_long
        (List.range (p.stack_long.takeWhile
          (fun tc => decide (tc.time ≤ p.countup + cfg.check_interval))).length) with
    | none => rw [hpm] at h2; cases h2
    | some sl =>
      rw [hpm] at h2
      cases hps : pulseScan p.on_pulsed_active p.num (p.countup + cfg.check_interval)
          0 p.stack_pulsed with
      | mk pEvs res =>
        rw [hps] at h2
        cases res with
        | none => cases h2
        | some pr =>
          cases pr with
          | mk sp flag =>
            cases h2
            dsimp only
            refine ⟨?_, ?_⟩
            · intro e he
              simp at he
              rcases he with ⟨tc, _, rfl⟩ | he
              · rfl
              · obtain ⟨cb, rfl⟩ := pulseScan_events p.on_pulsed_active p.num
                  (p.countup + cfg.check_interval) p.stack_pulsed 0 e
                  (by rw [hps]; exact he)
                rfl
            · refine ⟨by simp [hA], by simp, by simp, by simp, by simp, by simp,
                by simpa using popMany_sublist _ _ _ hpm, ?_⟩
              have hmap := pulseScan_map_callback p.on_pulsed_active p.num
                (p.countup + cfg.check_interval) p.stack_pulsed 0 sp flag
                (by rw [hps])
              have hperm : ((if flag = true then sp.insertionSort timeRel
                  else sp).map TimedCallback.callback).Perm
                  (sp.map TimedCallback.callback) := by
                by_cases hf : flag = true
                · rw [if_pos hf]
                  exact (List.perm_insertionSort timeRel sp).map TimedCallback.callback
                · rw [if_neg hf]
              simpa [hmap] using hperm

/-- C5, counterexample: feeding the raw sample `true` to a pin whose stable
state is already `true` and whose live long-hold list holds one due entry
removes that entry — the membership of `long_hold_live` changes on an
agreement tick, contrary to the claim. -/
theorem claim_C5_cex :
    true = c5pin.active ∧
    (GPIOPin.tick cfgStd c5pin true).2.map (fun q => q.stack_long) = some [] ∧
    c5pin.stack_long = [⟨0, 5⟩] :=
  ⟨rfl, rfl, rfl⟩

/-- C5, witness: the amended frame theorem applied to a fresh inactive pin
fed the agreeing sample `false`. -/
theorem claim_C5_amended_witness :
    false = c5wPin.active ∧
    (GPIOPin.tick cfgStd c5wPin false).2 = some c5wPin ∧
    ((∀ e ∈ (GPIOPin.tick cfgStd c5wPin false).1, e.isStateChange = false) ∧
     c5wPin.active = c5wPin.active ∧ c5wPin.num = c5wPin.num ∧
     c5wPin.on_active = c5wPin.on_active ∧ c5wPin.on_inactive = c5wPin.on_inactive ∧
     c5wPin.on_long_active = c5wPin.on_long_active ∧
     c5wPin.on_pulsed_active = c5wPin.on_pulsed_active ∧
     c5wPin.stack_long.Sublist c5wPin.stack_long ∧
     (c5wPin.stack_pulsed.map TimedCallback.callback).Perm
       (c5wPin.stack_pulsed.map TimedCallback.callback)) :=
  ⟨rfl, rfl, claim_C5_amended cfgStd c5wPin false c5wPin rfl rfl⟩

/-- C9, confirmed: the timing configuration lives on the shared `GPIOPin`
class, not on the engine instance.  Constructing an engine unconditionally
overwrites the shared configuration with its own arguments, whatever was
there before; and a pin created under the first engine is debounced with
whatever configuration is current when it is ticked: under the first
engine's configuration (activation 10 ms) the sample run flips it to
active, while after a second engine is constructed with activation 20 ms
the very same pin no longer flips on the same samples.  Two engines in one
process therefore cannot hold independent timings. -/
theorem claim_C9_shared_timing :
    (∀ cn ci ai ii : Int, (GPIODMonitor.init cn ci ai ii).2 =
      { check_interval := ci, active_interval := ai, inactive_interval := ii }) ∧
    (runPin cfgC9a pinC9 [false, true, true]).map (fun q => q.active) = some true ∧
    (runPin cfgC9b pinC9 [false, true, true]).map (fun q => q.active) = some false :=
  ⟨fun _ _ _ _ => rfl, rfl, rfl⟩

/-- When every pin's advance succeeds, the loop of `GPIODMonitor.tick`
advances each registered pin exactly once, in list (dict-insertion) order,
with the raw sample read for its line, concatenating the fired events. -/
theorem tickPins_ok (cfg : SharedConfig) (f : Nat → Bool) :
    ∀ pins : List (Nat × GPIOPin),
      (∀ np ∈ pins, ((GPIOPin.tick cfg np.2 (f np.1)).2).isSome) →
      tickPins cfg f pins =
        (pins.map (fun np => (np.1, ((GPIOPin.tick cfg np.2 (f np.1)).2).getD np.2)),
         (pins.map (fun np => (GPIOPin.tick cfg np.2 (f np.1)).1)).flatten,
         false) := by
  intro pins
  induction pins with
  | nil => intro _; rfl
  | cons np rest ih =>
    intro h
    cases np with
    | mk n p =>
      have hhd := h (n, p) (List.mem_cons_self _ _)
      cases htick : GPIOPin.tick cfg p (f n) with
      | mk evs op =>
        cases op with
        | none => rw [htick] at hhd; simp at hhd
        | some q =>
          simp only [tickPins, htick]
          rw [ih (fun np hm => h np (List.mem_cons_of_mem _ hm))]
          simp [htick]

/-- C7, confirmed: `GPIODMonitor.tick` called without a live chip handle
surfaces the not-acquired error (IOError in the source) with the engine
state untouched — no line is sampled and no pin advances; with a live
handle (and no pin-level raise) it reads each registered line's raw sample
and advances that pin exactly once, in the stable registration order. -/
theorem claim_C7_tick (cfg : SharedConfig) (m : GPIODMonitor) :
    (m.chip = none → GPIODMonitor.tick cfg m = (m, [], some MonErr.notAcquired)) ∧
    (∀ f, m.chip = some f →
      (∀ np ∈ m.pins, ((GPIOPin.tick cfg np.2 (f np.1)).2).isSome) →
      GPIODMonitor.tick cfg m =
        ({ m with pins := m.pins.map (fun np =>
             (np.1, ((GPIOPin.tick cfg np.2 (f np.1)).2).getD np.2)) },
         (m.pins.map (fun np => (GPIOPin.tick cfg np.2 (f np.1)).1)).flatten,
         none)) := by
  constructor
  · intro h
    simp [GPIODMonitor.tick, h]
  · intro f hf h
    simp only [GPIODMonitor.tick, hf]
    rw [tickPins_ok cfg f m.pins h]
    simp

/-- C7, witness: the error case on a freshly constructed engine, and the
normal case on an engine with one registered pin and a live handle. -/
theorem claim_C7_witness :
    (mC7none.chip = none ∧
     GPIODMonitor.tick cfgStd mC7none = (mC7none, [], some MonErr.notAcquired)) ∧
    (mC7.chip = some fC7 ∧
     GPIODMonitor.tick cfgStd mC7 =
       ({ mC7 with pins := mC7.pins.map (fun np =>
            (np.1, ((GPIOPin.tick cfgStd np.2 (fC7 np.1)).2).getD np.2)) },
        (mC7.pins.map (fun np => (GPIOPin.tick cfgStd np.2 (fC7 np.1)).1)).flatten,
        none)) :=
  ⟨⟨rfl, (claim_C7_tick cfgStd mC7none).1 rfl⟩,
   ⟨rfl, (claim_C7_tick cfgStd mC7).2 fC7 rfl (by decide)⟩⟩

/-- If the pulsed-callback loop set no sort flag, it fired nothing and left
the live list unchanged. -/
theorem pulseScan_flag_false (tmpl : List TimedCallback) (num : Nat) (cu : Int) :
    ∀ (l : List TimedCallback) (i : Nat) (l2 : List TimedCallback),
      (pulseScan tmpl num cu i l).2 = some (l2, false) → l2 = l := by
  intro l
  induction l with
  | nil =>
    intro i l2 h
    simp [pulseScan] at h
    exact h
  | cons tc rest ih =>
    intro i l2 h
    simp only [pulseScan] at h
    by_cases hc : cu ≥ tc.time
    · rw [if_pos hc] at h
      cases htm : tmpl[i]? with
      | none => rw [htm] at h; simp at h
      | some t0 =>
        rw [htm] at h
        cases hrec : pulseScan tmpl num cu (i + 1) rest with
        | mk evs res =>
          rw [hrec] at h
          cases res with
          | none => simp at h
          | some pr => cases pr with | mk l3 flag3 => simp at h
    · rw [if_neg hc] at h
      simp at h
      exact h.symm

/-- The identity snapshot used for `_stack_pulsed` at activation time. -/
theorem map_copy_timedCallback (l : List TimedCallback) :
    l.map (fun t => ({ callback := t.callback, time := t.time } : TimedCallback)) = l := by
  induction l with
  | nil => rfl
  | cons a l ih => simp only [List.map_cons, ih]

/-- C6, confirmed: registration re-sorts the affected template ascending by
offset, stably (a pair already in the relative order demanded by the keys
stays in that order, which for tied keys is the insertion order); the other
lists are untouched; and a tick — agreement drain, pulse requeue-and-sort,
or activation snapshot of the templates into the live lists — preserves
sortedness of all four lists. -/
theorem claim_C6_sorted (cfg : SharedConfig) (p : GPIOPin) (tc : TimedCallback)
    (hp : PinSorted p) :
    PinSorted (registerLongCb p tc) ∧
    PinSorted (registerPulseCb p tc) ∧
    (∀ a b, timeRel a b → [a, b].Sublist (p.on_long_active ++ [tc]) →
      [a, b].Sublist (registerLongCb p tc).on_long_active) ∧
    (∀ a b, timeRel a b → [a, b].Sublist (p.on_pulsed_active ++ [tc]) →
      [a, b].Sublist (registerPulseCb p tc).on_pulsed_active) ∧
    (∀ raw q, (GPIOPin.tick cfg p raw).2 = some q → PinSorted q) := by
  obtain ⟨h1, h2, h3, h4⟩ := hp
  refine ⟨⟨List.sorted_insertionSort timeRel _, h2, h3, h4⟩,
          ⟨h1, List.sorted_insertionSort timeRel _, h3, h4⟩,
          fun a b hab hsub => List.pair_sublist_insertionSort hab hsub,
          fun a b hab hsub => List.pair_sublist_insertionSort hab hsub,
          ?_⟩
  intro raw q h
  by_cases hra : raw = p.active
  · subst hra
    cases hA : p.active with
    | false =>
      simp [GPIOPin.tick, GPIOPin.reset_countdown, hA] at h
      subst h
      exact ⟨h1, h2, h3, h4⟩
    | true =>
      simp only [GPIOPin.tick, GPIOPin.reset_countdown, hA, if_pos rfl, if_true] at h
      cases hpm : popMany p.stack_long
          (List.range (p.stack_long.takeWhile
            (fun tcx => decide (tcx.time ≤ p.countup + cfg.check_interval))).length) with
      | none => rw [hpm] at h; cases h
      | some sl =>
        rw [hpm] at h
        cases hps : pulseScan p.on_pulsed_active p.num (p.countup + cfg.check_interval)
            0 p.stack_pulsed with
        | mk pEvs res =>
          rw [hps] at h
          cases res with
          | none => cases h
          | some pr =>
            cases pr with
            | mk sp flag =>
              cases h
              refine ⟨h1, h2, List.Pairwise.sublist (popMany_sublist _ _ _ hpm) h3, ?_⟩
              by_cases hf : flag = true
              · show SortedByTime (if flag = true then sp.insertionSort timeRel else sp)
                rw [if_pos hf]
                exact List.sorted_insertionSort timeRel sp
              · show SortedByTime (if flag = true then sp.insertionSort timeRel else sp)
                rw [if_neg hf]
                have hflag : flag = false := by
                  cases flag
                  · rfl
                  · exact absurd rfl hf
                subst hflag
                rw [pulseScan_flag_false p.on_pulsed_active p.num
                  (p.countup + cfg.check_interval) p.stack_pulsed 0 sp (by rw [hps])]
                exact h4
  · simp only [GPIOPin.tick, if_neg hra] at h
    by_cases h0 : p.countdown - cfg.check_interval = 0
    · rw [if_pos h0] at h
      simp only [GPIOPin.set_state, GPIOPin.reset_countdown] at h
      cases hr : raw with
      | false =>
        rw [hr] at h
        simp at h
        subst h
        exact ⟨h1, h2, h3, h4⟩
      | true =>
        rw [hr] at h
        simp at h
        subst h
        exact ⟨h1, h2, h1, h2⟩
    · rw [if_neg h0] at h
      cases h
      exact ⟨h1, h2, h3, h4⟩

/-- C6, witness: the registration operations applied to a concretely sorted
pin state. -/
theorem claim_C6_witness :
    PinSorted c2pin ∧
    PinSorted (registerLongCb c2pin ⟨13, 7⟩) ∧
    PinSorted (registerPulseCb c2pin ⟨13, 7⟩) :=
  ⟨by unfold PinSorted SortedByTime; decide,
   (claim_C6_sorted cfgStd c2pin ⟨13, 7⟩ (by unfold PinSorted SortedByTime; decide)).1,
   (claim_C6_sorted cfgStd c2pin ⟨13, 7⟩ (by unfold PinSorted SortedByTime; decide)).2.1⟩

/-- C10, confirmed: registration is total — for every callback and every
offset, including offsets ≤ 0, the entry is accepted as-is (the new template
is a reordering of the old list plus the new entry, nothing rejected or
clamped) — and an entry registered with offset ≤ 0 fires on the very first
qualifying tick of an activation episode: on a pin one confirming tick away
from activation, the first tick confirms the transition (firing only the
activation callbacks) and the very next agreement tick — the first on which
the hold counter advances — fires the long-hold and the pulse callback. -/
theorem claim_C10_registration (cfg : SharedConfig) (p : GPIOPin)
    (tcL tcP : TimedCallback)
    (hc : 0 < cfg.check_interval) (hA : p.active = false)
    (hcd : p.countdown = cfg.check_interval)
    (hL0 : tcL.time ≤ 0) (hP0 : tcP.time ≤ 0)
    (hLt : p.on_long_active = []) (hPt : p.on_pulsed_active = []) :
    (∀ (p2 : GPIOPin) (c : TimedCallback),
      ((registerLongCb p2 c).on_long_active).Perm (p2.on_long_active ++ [c]) ∧
      ((registerPulseCb p2 c).on_pulsed_active).Perm (p2.on_pulsed_active ++ [c])) ∧
    runEvents cfg (registerPulseCb (registerLongCb p tcL) tcP) [true, true] =
      p.on_active.map (fun cb => Ev.act p.num cb) ++
        [Ev.long p.num tcL.callback, Ev.pulse p.num tcP.callback] := by
  constructor
  · intro p2 c
    exact ⟨List.perm_insertionSort timeRel _, List.perm_insertionSort timeRel _⟩
  · have hreg2 : registerPulseCb (registerLongCb p tcL) tcP =
        { p with on_long_active := [tcL], on_pulsed_active := [tcP] } := by
      simp [registerLongCb, registerPulseCb, hLt, hPt,
        List.insertionSort, List.orderedInsert]
    have hcd0 : p.countdown - cfg.check_interval = 0 := by rw [hcd]; ring
    set q1 : GPIOPin :=
      { num := p.num
        active := true
        countdown := cfg.inactive_interval
        countup := 0
        on_active := p.on_active
        on_inactive := p.on_inactive
        on_long_active := [tcL]
        on_pulsed_active := [tcP]
        stack_long := [tcL]
        stack_pulsed := [tcP] } with hq1def
    have htick1 : GPIOPin.tick cfg
        ({ p with on_long_active := [tcL], on_pulsed_active := [tcP] }) true =
        (p.on_active.map (fun cb => Ev.act p.num cb), some q1) := by
      rw [hq1def]
      simp [GPIOPin.tick, hA, hcd0, GPIOPin.set_state, GPIOPin.reset_countdown]
    have hL1 : tcL.time ≤ cfg.check_interval := by omega
    have hP1 : tcP.time ≤ cfg.check_interval := by omega
    have htick2 : (GPIOPin.tick cfg q1 true).1 =
        [Ev.long p.num tcL.callback, Ev.pulse p.num tcP.callback] := by
      rw [hq1def]
      simp [GPIOPin.tick, GPIOPin.reset_countdown, List.takeWhile, popMany, popAt,
        pulseScan, decide_eq_true hL1, hP1]
    rw [hreg2]
    simp only [runEvents, htick1]
    cases hq2 : GPIOPin.tick cfg q1 true with
    | mk evs2 op2 =>
      have hevs2 : evs2 = [Ev.long p.num tcL.callback, Ev.pulse p.num tcP.callback] := by
        rw [← htick2, hq2]
      cases op2 with
      | none => simp [hevs2]
      | some q2 => simp [runEvents, hevs2]

/-- C10, witness: the theorem applied to a concrete pin one tick from
activation, with a long-hold callback at offset 0 and a pulse callback at
offset -2 ms. -/
theorem claim_C10_witness :
    (0 : Int) < cfgStd.check_interval ∧ c10pin.active = false ∧
    c10pin.countdown = cfgStd.check_interval ∧
    ((⟨30, 0⟩ : TimedCallback).time ≤ 0) ∧ ((⟨31, -2⟩ : TimedCallback).time ≤ 0) ∧
    runEvents cfgStd (registerPulseCb (registerLongCb c10pin ⟨30, 0⟩) ⟨31, -2⟩)
        [true, true] =
      c10pin.on_active.map (fun cb => Ev.act c10pin.num cb) ++
        [Ev.long c10pin.num 30, Ev.pulse c10pin.num 31] :=
  ⟨by decide, rfl, rfl, by decide, by decide,
   (claim_C10_registration cfgStd c10pin ⟨30, 0⟩ ⟨31, -2⟩ (by decide) rfl rfl
     (by decide) (by decide) rfl rfl).2⟩

/-- An agreement tick while inactive only resets the countdown to the
activation interval. -/
theorem tick_agree_inactive (cfg : SharedConfig) (p : GPIOPin) (hA : p.active = false) :
    GPIOPin.tick cfg p false = ([], some { p with countdown := cfg.active_interval }) := by
  simp [GPIOPin.tick, GPIOPin.reset_countdown, hA]

/-- A disagreeing tick that does not hit zero only decrements the countdown
by the check interval. -/
theorem tick_disagree_noflip (cfg : SharedConfig) (p : GPIOPin) (raw : Bool)
    (hne : raw ≠ p.active) (h0 : p.countdown - cfg.check_interval ≠ 0) :
    GPIOPin.tick cfg p raw =
      ([], some { p with countdown := p.countdown - cfg.check_interval }) := by
  simp [GPIOPin.tick, hne, h0]

/-- A disagreeing tick that decrements the countdown exactly to zero
confirms the transition to active: the activation callbacks fire and the
state becomes `flipToActive`. -/
theorem tick_disagree_flip_up (cfg : SharedConfig) (p : GPIOPin)
    (hA : p.active = false) (h0 : p.countdown - cfg.check_interval = 0) :
    GPIOPin.tick cfg p true =
      (p.on_active.map (fun cb => Ev.act p.num cb), some (flipToActive cfg p)) := by
  simp [GPIOPin.tick, hA, h0, GPIOPin.set_state, GPIOPin.reset_countdown, flipToActive]

/-- A disagreeing tick that decrements the countdown exactly to zero
confirms the transition to inactive: the deactivation callbacks fire and
the state becomes `flipToInactive`. -/
theorem tick_disagree_flip_down (cfg : SharedConfig) (p : GPIOPin)
    (hA : p.active = true) (h0 : p.countdown - cfg.check_interval = 0) :
    GPIOPin.tick cfg p false =
      (p.on_inactive.map (fun cb => Ev.inact p.num cb), some (flipToInactive cfg p)) := by
  simp [GPIOPin.tick, hA, h0, GPIOPin.set_state, GPIOPin.reset_countdown, flipToInactive]

/-- Runs decompose over list concatenation. -/
theorem runPin_append (cfg : SharedConfig) :
    ∀ (xs ys : List Bool) (p : GPIOPin),
      runPin cfg p (xs ++ ys) =
        match runPin cfg p xs with
        | none => none
        | some q => runPin cfg q ys := by
  intro xs
  induction xs with
  | nil => intro ys p; rfl
  | cons x xs ih =>
    intro ys p
    simp only [List.cons_append, runPin]
    cases GPIOPin.tick cfg p x with
    | mk evs op =>
      cases op with
      | none => rfl
      | some q => exact ih ys q

/-- While the countdown stands at `N` check-intervals, `k < N` consecutive
disagreeing samples leave the stable state untouched and the countdown at
`N - k` check-intervals. -/
theorem runPin_replicate_noflip (cfg : SharedConfig) (r : Bool) :
    ∀ (k N : Nat) (p : GPIOPin), p.active = !r → 0 < cfg.check_interval →
      p.countdown = (N : Int) * cfg.check_interval → k < N →
      runPin cfg p (List.replicate k r) =
        some { p with countdown := ((N : Int) - (k : Int)) * cfg.check_interval } := by
  intro k
  induction k with
  | zero =>
    intro N p hA hc hcd hk
    rw [List.replicate_zero, runPin,
      show ((N : Int) - ((0 : Nat) : Int)) * cfg.check_interval = p.countdown by
        rw [hcd]; push_cast; ring]
  | succ k ih =>
    intro N p hA hc hcd hk
    cases N with
    | zero => omega
    | succ M =>
      have hne : r ≠ p.active := by rw [hA]; cases r <;> simp
      have hstep : p.countdown - cfg.check_interval = (M : Int) * cfg.check_interval := by
        rw [hcd]; push_cast; ring
      have hMpos : (0 : Int) < (M : Int) := by exact_mod_cast (by omega : 0 < M)
      have h0 : p.countdown - cfg.check_interval ≠ 0 := by
        rw [hstep]; exact (mul_pos hMpos hc).ne'
      rw [List.replicate_succ, runPin, tick_disagree_noflip cfg p r hne h0]
      dsimp only
      have hrec := ih M { p with countdown := p.countdown - cfg.check_interval }
        (by exact hA) hc (by exact hstep) (by omega)
      rw [hrec,
        show ((M : Int) - (k : Int)) * cfg.check_interval =
            (((M + 1 : Nat) : Int) - ((k + 1 : Nat) : Int)) * cfg.check_interval by
          push_cast; ring]

/-- With the countdown at `N` check-intervals, `N` consecutive disagreeing
active samples confirm the transition to active exactly at the `N`-th
tick. -/
theorem runPin_replicate_flip_up (cfg : SharedConfig) (N : Nat) (p : GPIOPin)
    (hA : p.active = false) (hc : 0 < cfg.check_interval)
    (hcd : p.countdown = (N : Int) * cfg.check_interval) (hN : 0 < N) :
    runPin cfg p (List.replicate N true) = some (flipToActive cfg p) := by
  cases N with
  | zero => omega
  | succ M =>
    rw [List.replicate_succ', runPin_append]
    rw [runPin_replicate_noflip cfg true M (M + 1) p (by exact hA) hc hcd
      (by omega)]
    dsimp only
    have h0 : (((M + 1 : Nat) : Int) - ((M : Nat) : Int)) * cfg.check_interval
        - cfg.check_interval = 0 := by push_cast; ring
    rw [runPin, tick_disagree_flip_up cfg _ (by exact hA) (by exact h0)]
    rfl

/-- With the countdown at `M` check-intervals, `M` consecutive disagreeing
inactive samples confirm the transition to inactive exactly at the `M`-th
tick. -/
theorem runPin_replicate_flip_down (cfg : SharedConfig) (M : Nat) (p : GPIOPin)
    (hA : p.active = true) (hc : 0 < cfg.check_interval)
    (hcd : p.countdown = (M : Int) * cfg.check_interval) (hM : 0 < M) :
    runPin cfg p (List.replicate M false) = some (flipToInactive cfg p) := by
  cases M with
  | zero => omega
  | succ K =>
    rw [List.replicate_succ', runPin_append]
    rw [runPin_replicate_noflip cfg false K (K + 1) p (by exact hA) hc hcd
      (by omega)]
    dsimp only
    have h0 : (((K + 1 : Nat) : Int) - ((K : Nat) : Int)) * cfg.check_interval
        - cfg.check_interval = 0 := by push_cast; ring
    rw [runPin, tick_disagree_flip_down cfg _ (by exact hA) (by exact h0)]
    rfl

/-- When the check interval does not divide the countdown, disagreeing
samples decrement it past zero forever and the stable state never flips. -/
theorem runPin_replicate_stuck (cfg : SharedConfig) (r : Bool) :
    ∀ (k : Nat) (p : GPIOPin), p.active = !r → 0 < cfg.check_interval →
      ¬ (cfg.check_interval ∣ p.countdown) →
      runPin cfg p (List.replicate k r) =
        some { p with countdown := p.countdown - (k : Int) * cfg.check_interval } := by
  intro k
  induction k with
  | zero =>
    intro p hA hc hd
    rw [List.replicate_zero, runPin,
      show p.countdown - ((0 : Nat) : Int) * cfg.check_interval = p.countdown by
        push_cast; ring]
  | succ k ih =>
    intro p hA hc hd
    have hne : r ≠ p.active := by rw [hA]; cases r <;> simp
    have h0 : p.countdown - cfg.check_interval ≠ 0 := by
      intro h
      exact hd ⟨1, by omega⟩
    rw [List.replicate_succ, runPin, tick_disagree_noflip cfg p r hne h0]
    dsimp only
    have hd2 : ¬ (cfg.check_interval ∣ (p.countdown - cfg.check_interval)) := by
      intro hdvd
      apply hd
      have h3 := dvd_add hdvd (dvd_refl cfg.check_interval)
      simpa using h3
    have hrec := ih { p with countdown := p.countdown - cfg.check_interval }
      (by exact hA) hc (by exact hd2)
    rw [hrec,
      show p.countdown - cfg.check_interval - (k : Int) * cfg.check_interval =
          p.countdown - ((k + 1 : Nat) : Int) * cfg.check_interval by push_cast; ring]

/-- C1, amended: the countdown trigger is an exact equality test, so the
claimed ceiling rule holds only when the configured interval is an exact
positive multiple `N * poll` of the poll interval: then, starting from any
agreement point (where the countdown stands at the full interval — the first
conjunct shows every inactive agreement tick re-establishes this, and the
second that a confirmed or re-affirmed active state puts the countdown at
the deactivation interval), fewer than `N` consecutive disagreeing samples
never flip the stable state, and exactly `N` consecutive disagreeing
samples flip it at the `N`-th tick (so any run of at least `N` flips at its
`N`-th tick); symmetrically for deactivation.  When the poll interval does
not divide the configured interval, the countdown steps over zero and the
flip never occurs, for any number of consecutive disagreeing samples —
refuting the claim's ceiling rule for non-multiples. -/
theorem claim_C1_amended (cfg : SharedConfig) (hc : 0 < cfg.check_interval) :
    (∀ p : GPIOPin, p.active = false →
      GPIOPin.tick cfg p false = ([], some { p with countdown := cfg.active_interval })) ∧
    (∀ (p q : GPIOPin), p.active = true → (GPIOPin.tick cfg p true).2 = some q →
      q.countdown = cfg.inactive_interval) ∧
    (∀ (N : Nat) (p : GPIOPin), 0 < N →
      cfg.active_interval = (N : Int) * cfg.check_interval →
      p.active = false → p.countdown = cfg.active_interval →
      (∀ k : Nat, k < N → (runPin cfg p (List.replicate k true)).map
          (fun s => (s.active, s.countdown)) =
            some (false, ((N : Int) - (k : Int)) * cfg.check_interval)) ∧
      runPin cfg p (List.replicate N true) = some (flipToActive cfg p)) ∧
    (∀ (M : Nat) (p : GPIOPin), 0 < M →
      cfg.inactive_interval = (M : Int) * cfg.check_interval →
      p.active = true → p.countdown = cfg.inactive_interval →
      (∀ k : Nat, k < M → (runPin cfg p (List.replicate k false)).map
          (fun s => (s.active, s.countdown)) =
            some (true, ((M : Int) - (k : Int)) * cfg.check_interval)) ∧
      runPin cfg p (List.replicate M false) = some (flipToInactive cfg p)) ∧
    (∀ p : GPIOPin, p.active = false → ¬ (cfg.check_interval ∣ p.countdown) →
      ∀ k : Nat, (runPin cfg p (List.replicate k true)).map (fun s => s.active) =
        some false) ∧
    (∀ p : GPIOPin, p.active = true → ¬ (cfg.check_interval ∣ p.countdown) →
      ∀ k : Nat, (runPin cfg p (List.replicate k false)).map (fun s => s.active) =
        some true) := by
  refine ⟨?_, ?_, ?_, ?_, ?_, ?_⟩
  · intro p hA
    exact tick_agree_inactive cfg p hA
  · intro p q hA h
    simp only [GPIOPin.tick, GPIOPin.reset_countdown, hA, if_pos rfl, if_true] at h
    cases hpm : popMany p.stack_long (List.range (p.stack_long.takeWhile
        (fun tcx => decide (tcx.time ≤ p.countup + cfg.check_interval))).length) with
    | none => rw [hpm] at h; cases h
    | some sl =>
      rw [hpm] at h
      cases hps : pulseScan p.on_pulsed_active p.num (p.countup + cfg.check_interval)
          0 p.stack_pulsed with
      | mk pEvs res =>
        rw [hps] at h
        cases res with
        | none => cases h
        | some pr =>
          cases pr with
          | mk sp flag =>
            cases h
            rfl
  · intro N p hN hmult hA hcd
    refine ⟨?_, ?_⟩
    · intro k hk
      rw [runPin_replicate_noflip cfg true k N p (by exact hA) hc
        (by rw [hcd, hmult]) hk]
      simp [hA]
    · exact runPin_replicate_flip_up cfg N p hA hc (by rw [hcd, hmult]) hN
  · intro M p hM hmult hA hcd
    refine ⟨?_, ?_⟩
    · intro k hk
      rw [runPin_replicate_noflip cfg false k M p (by exact hA) hc
        (by rw [hcd, hmult]) hk]
      simp [hA]
    · exact runPin_replicate_flip_down cfg M p hA hc (by rw [hcd, hmult]) hM
  · intro p hA hnd k
    rw [runPin_replicate_stuck cfg true k p (by exact hA) hc hnd]
    simp [hA]
  · intro p hA hnd k
    rw [runPin_replicate_stuck cfg false k p (by exact hA) hc hnd]
    simp [hA]

/-- C1, witness: the characterization applied to a fresh pin under the
default configuration (activation 10 ms = 2 poll intervals): one active
sample leaves it inactive with the countdown at one interval, two flip it. -/
theorem claim_C1_amended_witness :
    (0 : Int) < cfgStd.check_interval ∧
    0 < 2 ∧ cfgStd.active_interval = ((2 : Nat) : Int) * cfgStd.check_interval ∧
    c1wPin.active = false ∧ c1wPin.countdown = cfgStd.active_interval ∧
    (runPin cfgStd c1wPin (List.replicate 1 true)).map
        (fun s => (s.active, s.countdown)) =
      some (false, (((2 : Nat) : Int) - ((1 : Nat) : Int)) * cfgStd.check_interval) ∧
    runPin cfgStd c1wPin (List.replicate 2 true) = some (flipToActive cfgStd c1wPin) :=
  ⟨by decide, by decide, by decide, rfl, rfl,
   ((claim_C1_amended cfgStd (by decide)).2.2.1 2 c1wPin (by decide) (by decide)
     rfl rfl).1 1 (by decide),
   ((claim_C1_amended cfgStd (by decide)).2.2.1 2 c1wPin (by decide) (by decide)
     rfl rfl).2⟩

end Gpiodmonitor
